import Mathlib

/-!
Shallow embedding of the crowding-correction and export step of
`tess_cbvs_correction_toi-560.ipynb` (cells 48, 54 and 55).  Numeric values
are modelled as rationals; the parallel numpy arrays are modelled as
`List ℚ` with elementwise (broadcast) operations as `List.map`.
-/

/-- Insert a rational into a sorted list, keeping it sorted. -/
def insertSorted (x : ℚ) : List ℚ → List ℚ
  | [] => [x]
  | y :: ys => if x ≤ y then x :: y :: ys else y :: insertSorted x ys

/-- Insertion sort on rationals (ascending), modelling the sort performed
inside `np.median`. -/
def sortAsc : List ℚ → List ℚ
  | [] => []
  | x :: xs => insertSorted x (sortAsc xs)

/-- Standard median, as computed by `np.median`: sort the data and take the
middle element, or the average of the two middle elements when the length is
even.  `np.median` of an empty array is NaN (with a warning); the rational
model returns the junk value 0 in that case. -/
def median (xs : List ℚ) : ℚ :=
  let s := sortAsc xs
  let n := s.length
  if n = 0 then 0
  else if n % 2 = 1 then s.getD (n / 2) 0
  else (s.getD (n / 2 - 1) 0 + s.getD (n / 2) 0) / 2

/-- Arithmetic mean, as computed by `np.mean` (sum divided by length). -/
def mean (xs : List ℚ) : ℚ := xs.sum / (xs.length : ℚ)

/-- Cell 48: `excess_flux = (1-CROWDSAP)*median_flux` where
`median_flux = np.median(flux)`. -/
def excess_flux (flux : List ℚ) (CROWDSAP : ℚ) : ℚ :=
  (1 - CROWDSAP) * median flux

/-- Cell 48: `flux_removed = flux - excess_flux` (broadcast subtraction). -/
def flux_removed (flux : List ℚ) (CROWDSAP : ℚ) : List ℚ :=
  flux.map (fun x => x - excess_flux flux CROWDSAP)

/-- Cell 48: `flux_corr = flux_removed/FLFRCSAP` (broadcast division). -/
def flux_corr (flux : List ℚ) (CROWDSAP FLFRCSAP : ℚ) : List ℚ :=
  (flux_removed flux CROWDSAP).map (fun x => x / FLFRCSAP)

/-- Cell 48: `flux_err_corr = flux_err/FLFRCSAP` (broadcast division). -/
def flux_err_corr (flux_err : List ℚ) (FLFRCSAP : ℚ) : List ℚ :=
  flux_err.map (fun x => x / FLFRCSAP)

/-- Cell 54: `f = lc_cbv_corr.flux/np.mean(lc_cbv_corr.flux)`, where the
flux of `lc_cbv_corr` is `flux_corr`. -/
def f_out (flux : List ℚ) (CROWDSAP FLFRCSAP : ℚ) : List ℚ :=
  (flux_corr flux CROWDSAP FLFRCSAP).map
    (fun x => x / mean (flux_corr flux CROWDSAP FLFRCSAP))

/-- Cell 54: `e = lc_cbv_corr.flux_err/np.mean(lc_cbv_corr.flux)`: the error
is divided by the mean of the unnormalized corrected flux. -/
def e_out (flux flux_err : List ℚ) (CROWDSAP FLFRCSAP : ℚ) : List ℚ :=
  (flux_err_corr flux_err FLFRCSAP).map
    (fun x => x / mean (flux_corr flux CROWDSAP FLFRCSAP))

/-- Cell 55, loop body: the string written for sample `i` is
the time value, two spaces, the normalized flux, one space, the normalized
error, one space and a newline.  Number rendering (Python `format`) is kept
abstract as a `render` argument. -/
def save_line (render : ℚ → String) (t fv ev : ℚ) : String :=
  render t ++ "  " ++ render fv ++ " " ++ render ev ++ " \n"

/-- Cell 55: the list of lines written to the output file, one for each
`i` in `range(len(lc_cbv_corr.time))`, in index order, with no header. -/
def save_data (render : ℚ → String) (time fs es : List ℚ) : List String :=
  (List.range time.length).map
    (fun i => save_line render (time.getD i 0) (fs.getD i 0) (es.getD i 0))

/-- `getD` commutes with `map` at in-range indices (defaults irrelevant). -/
theorem getD_map_eq {α β : Type} (g : α → β) :
    ∀ (l : List α) (i : ℕ) (d : α) (d' : β), i < l.length →
      (l.map g).getD i d' = g (l.getD i d)
  | _ :: _, 0, _, _, _ => rfl
  | _ :: l, i + 1, d, d', h => getD_map_eq g l i d d' (by simpa using h)

/-- `getD` on `List.range` returns the index itself at in-range indices. -/
theorem getD_range (n i : ℕ) (h : i < n) : (List.range n).getD i 0 = i := by
  rw [List.getD_eq_getElem?_getD, List.getElem?_eq_getElem (by simpa using h)]
  simp

/-- Dividing numerator and denominator by the same nonzero constant leaves a
quotient unchanged. -/
theorem div_div_same_cancel (a b m : ℚ) (hm : m ≠ 0) :
    a / m / (b / m) = a / b := by
  rw [div_div_div_eq, mul_comm, mul_div_mul_left _ _ hm]

/-- Dividing every element by a constant divides the sum by that constant. -/
theorem sum_map_div (l : List ℚ) (m : ℚ) :
    (l.map (fun x => x / m)).sum = l.sum / m := by
  induction l with
  | nil => simp
  | cons a t ih => simp [ih, add_div]

/-- C1: for a non-empty, equal-length pair of sequences and scalars CROWDSAP,
FLFRCSAP in (0,1], the crowding-correction step produces corrected flux and
error sequences of the input length, with
`flux_corr[i] = (flux[i] - (1 - CROWDSAP) * median flux) / FLFRCSAP` and
`flux_err_corr[i] = flux_err[i] / FLFRCSAP` at every index. -/
theorem crowding_correction_contract (flux flux_err : List ℚ)
    (CROWDSAP FLFRCSAP : ℚ) (i : ℕ)
    (hne : flux ≠ []) (hlen : flux.length = flux_err.length)
    (hC : 0 < CROWDSAP ∧ CROWDSAP ≤ 1) (hF : 0 < FLFRCSAP ∧ FLFRCSAP ≤ 1)
    (hi : i < flux.length) :
    (flux_corr flux CROWDSAP FLFRCSAP).length = flux.length ∧
    (flux_err_corr flux_err FLFRCSAP).length = flux.length ∧
    (flux_corr flux CROWDSAP FLFRCSAP).getD i 0 =
      (flux.getD i 0 - (1 - CROWDSAP) * median flux) / FLFRCSAP ∧
    (flux_err_corr flux_err FLFRCSAP).getD i 0 =
      flux_err.getD i 0 / FLFRCSAP := by
  have hie : i < flux_err.length := hlen ▸ hi
  have h1 : i < (flux_removed flux CROWDSAP).length := by
    simpa [flux_removed] using hi
  refine ⟨by simp [flux_corr, flux_removed],
    by simp [flux_err_corr, hlen.symm], ?_, ?_⟩
  · rw [flux_corr, getD_map_eq _ _ _ 0 0 h1, flux_removed,
      getD_map_eq _ _ _ 0 0 hi, excess_flux]
  · rw [flux_err_corr, getD_map_eq _ _ _ 0 0 hie]

/-- Witness for C1 at flux = [100, 110, 90], flux_err = [5, 5, 5],
CROWDSAP = 0.96, FLFRCSAP = 0.93, index 0. -/
theorem crowding_correction_contract_witness :
    (flux_corr [100, 110, 90] (96/100) (93/100)).length =
      ([100, 110, 90] : List ℚ).length ∧
    (flux_err_corr [5, 5, 5] (93/100)).length =
      ([100, 110, 90] : List ℚ).length ∧
    (flux_corr [100, 110, 90] (96/100) (93/100)).getD 0 0 =
      (([100, 110, 90] : List ℚ).getD 0 0 -
        (1 - 96/100) * median [100, 110, 90]) / (93/100) ∧
    (flux_err_corr [5, 5, 5] (93/100)).getD 0 0 =
      (([5, 5, 5] : List ℚ).getD 0 0) / (93/100) :=
  crowding_correction_contract [100, 110, 90] [5, 5, 5] (96/100) (93/100) 0
    (by simp) (by simp) (by norm_num) (by norm_num) (by simp)

/-- C2: the serialization step emits one line per sample in index order,
no header, and line i is the rendered time, two spaces, the rendered
normalized flux, a space, the rendered normalized error, a space and a
newline. -/
theorem save_data_format (render : ℚ → String) (time fs es : List ℚ) (i : ℕ)
    (hf : fs.length = time.length) (he : es.length = time.length)
    (hi : i < time.length) :
    (save_data render time fs es).length = time.length ∧
    (save_data render time fs es).getD i "" =
      render (time.getD i 0) ++ "  " ++ render (fs.getD i 0) ++ " "
        ++ render (es.getD i 0) ++ " \n" := by
  have hr : i < (List.range time.length).length := by simpa using hi
  refine ⟨by simp [save_data], ?_⟩
  rw [save_data, getD_map_eq _ _ _ 0 "" hr, getD_range _ _ hi, save_line]

/-- Witness for C2 at a three-sample input with a concrete rendering map and
index 1. -/
theorem save_data_format_witness :
    (save_data (fun _ => "r") [1, 2, 3] [4, 5, 6] [7, 8, 9]).length =
      ([1, 2, 3] : List ℚ).length ∧
    (save_data (fun _ => "r") [1, 2, 3] [4, 5, 6] [7, 8, 9]).getD 1 "" =
      "r" ++ "  " ++ "r" ++ " " ++ "r" ++ " \n" :=
  save_data_format (fun _ => "r") [1, 2, 3] [4, 5, 6] [7, 8, 9] 1
    (by simp) (by simp) (by simp)

/-- C6 counterexample: with CROWDSAP = 1 but FLFRCSAP = 1/2 the corrected
flux is not the input flux (the input [2] becomes [4]). -/
theorem crowdsap_one_counterexample : flux_corr [2] 1 (1/2) ≠ [2] := by
  norm_num [flux_corr, flux_removed, excess_flux, median, sortAsc, insertSorted]

/-- C6 amended: with CROWDSAP = 1 no excess flux is subtracted
(`flux_removed = flux`), and `flux_corr` is the input flux with every entry
divided by FLFRCSAP; it equals the input flux itself exactly when
FLFRCSAP = 1. -/
theorem crowdsap_one_no_excess (flux : List ℚ) (FLFRCSAP : ℚ) :
    flux_removed flux 1 = flux ∧
    flux_corr flux 1 FLFRCSAP = flux.map (fun x => x / FLFRCSAP) ∧
    flux_corr flux 1 1 = flux := by
  refine ⟨by simp [flux_removed, excess_flux],
    by simp [flux_corr, flux_removed, excess_flux],
    by simp [flux_corr, flux_removed, excess_flux]⟩

/-- C7: with FLFRCSAP = 1 no rescaling occurs: the corrected flux equals
`flux_removed`, i.e. `flux[i] - (1 - CROWDSAP) * median flux` at every
in-range index. -/
theorem flfrcsap_one_no_rescale (flux : List ℚ) (CROWDSAP : ℚ) (i : ℕ)
    (hi : i < flux.length) :
    flux_corr flux CROWDSAP 1 = flux_removed flux CROWDSAP ∧
    (flux_corr flux CROWDSAP 1).getD i 0 =
      flux.getD i 0 - (1 - CROWDSAP) * median flux := by
  have h1 : i < (flux_removed flux CROWDSAP).length := by
    simpa [flux_removed] using hi
  refine ⟨by simp [flux_corr], ?_⟩
  rw [flux_corr, getD_map_eq _ _ _ 0 0 h1, flux_removed,
    getD_map_eq _ _ _ 0 0 hi, excess_flux, div_one]

/-- Witness for C7 at flux = [2, 4], CROWDSAP = 1/2, index 0. -/
theorem flfrcsap_one_no_rescale_witness :
    flux_corr [2, 4] (1/2) 1 = flux_removed [2, 4] (1/2) ∧
    (flux_corr [2, 4] (1/2) 1).getD 0 0 =
      ([2, 4] : List ℚ).getD 0 0 - (1 - 1/2) * median [2, 4] :=
  flfrcsap_one_no_rescale [2, 4] (1/2) 0 (by simp)

/-- C8: the ratio of corrected to original uncertainty is 1 / FLFRCSAP at
every in-range index with nonzero error and nonzero FLFRCSAP; the
definition of `flux_err_corr` takes neither CROWDSAP nor the flux values. -/
theorem err_ratio_inverse_flfrcsap (flux_err : List ℚ) (FLFRCSAP : ℚ) (i : ℕ)
    (hi : i < flux_err.length) (hF : FLFRCSAP ≠ 0)
    (he : flux_err.getD i 0 ≠ 0) :
    (flux_err_corr flux_err FLFRCSAP).getD i 0 / flux_err.getD i 0 =
      1 / FLFRCSAP := by
  rw [flux_err_corr, getD_map_eq _ _ _ 0 0 hi, div_right_comm, div_self he]

/-- Witness for C8 at flux_err = [5, 5, 5], FLFRCSAP = 0.93, index 2. -/
theorem err_ratio_inverse_flfrcsap_witness :
    (flux_err_corr [5, 5, 5] (93/100)).getD 2 0 /
      (([5, 5, 5] : List ℚ).getD 2 0) = 1 / (93/100) :=
  err_ratio_inverse_flfrcsap [5, 5, 5] (93/100) 2
    (by simp) (by norm_num) (by norm_num)

/-- C3 counterexample: with FLFRCSAP = 0 the code performs no validation;
on a three-sample input the serialized output still has 3 lines, so an
output file is produced. -/
theorem flfrcsap_zero_counterexample :
    (save_data (fun _ => "") [1, 2, 3] (f_out [100, 110, 90] (96/100) 0)
        (e_out [100, 110, 90] [5, 5, 5] (96/100) 0)).length = 3 := by
  simp [save_data]

/-- C3 amended: with FLFRCSAP = 0 no domain error is raised; the corrected
sequences are still computed with one entry per sample (floating-point
division by zero propagates; in the rational model division by zero yields
0), and the output file is still written with one line per sample. -/
theorem flfrcsap_zero_no_validation (render : ℚ → String)
    (time flux flux_err : List ℚ) (CROWDSAP : ℚ) :
    (flux_corr flux CROWDSAP 0).length = flux.length ∧
    (flux_err_corr flux_err 0).length = flux_err.length ∧
    (save_data render time (f_out flux CROWDSAP 0)
        (e_out flux flux_err CROWDSAP 0)).length = time.length := by
  refine ⟨by simp [flux_corr, flux_removed], by simp [flux_err_corr],
    by simp [save_data]⟩

/-- C4 counterexample: on the empty input the computation is defined and
silently yields empty corrected sequences and an empty output, rather than
raising a domain error. -/
theorem empty_input_counterexample :
    flux_corr [] (96/100) (93/100) = [] ∧
    flux_err_corr [] (93/100) = [] ∧
    save_data (fun _ => "") [] [] [] = [] :=
  ⟨rfl, rfl, rfl⟩

/-- C4 amended: with n = 0 no error is raised: `np.median` of the empty
array is NaN (a junk value in the rational model), all corrected and
normalized sequences are empty, and the output file is written empty
(zero lines). -/
theorem empty_input_no_error (render : ℚ → String) (CROWDSAP FLFRCSAP : ℚ) :
    flux_corr [] CROWDSAP FLFRCSAP = [] ∧
    flux_err_corr [] FLFRCSAP = [] ∧
    f_out [] CROWDSAP FLFRCSAP = [] ∧
    e_out [] [] CROWDSAP FLFRCSAP = [] ∧
    save_data render [] [] [] = [] :=
  ⟨rfl, rfl, rfl, rfl, rfl⟩

/-- C5: both normalized series divide by the same denominator, the mean of
the unnormalized corrected flux, so wherever the corrected flux and that
mean are nonzero the ratio e[i]/f[i] equals
flux_err_corr[i]/flux_corr[i] (relative uncertainty is preserved). -/
theorem relative_uncertainty_preserved (flux flux_err : List ℚ)
    (CROWDSAP FLFRCSAP : ℚ) (i : ℕ)
    (hif : i < flux.length) (hie : i < flux_err.length)
    (hm : mean (flux_corr flux CROWDSAP FLFRCSAP) ≠ 0)
    (hc : (flux_corr flux CROWDSAP FLFRCSAP).getD i 0 ≠ 0) :
    (e_out flux flux_err CROWDSAP FLFRCSAP).getD i 0 /
      (f_out flux CROWDSAP FLFRCSAP).getD i 0 =
    (flux_err_corr flux_err FLFRCSAP).getD i 0 /
      (flux_corr flux CROWDSAP FLFRCSAP).getD i 0 := by
  have hc' : i < (flux_corr flux CROWDSAP FLFRCSAP).length := by
    simpa [flux_corr, flux_removed] using hif
  have he' : i < (flux_err_corr flux_err FLFRCSAP).length := by
    simpa [flux_err_corr] using hie
  rw [e_out, getD_map_eq _ _ _ 0 0 he', f_out, getD_map_eq _ _ _ 0 0 hc']
  exact div_div_same_cancel _ _ _ hm

/-- Witness for C5 at flux = [100, 110, 90], flux_err = [5, 5, 5],
CROWDSAP = 0.96, FLFRCSAP = 0.93, index 0. -/
theorem relative_uncertainty_preserved_witness :
    (e_out [100, 110, 90] [5, 5, 5] (96/100) (93/100)).getD 0 0 /
      (f_out [100, 110, 90] (96/100) (93/100)).getD 0 0 =
    (flux_err_corr [5, 5, 5] (93/100)).getD 0 0 /
      (flux_corr [100, 110, 90] (96/100) (93/100)).getD 0 0 :=
  relative_uncertainty_preserved [100, 110, 90] [5, 5, 5] (96/100) (93/100) 0
    (by simp) (by simp)
    (by norm_num [mean, flux_corr, flux_removed, excess_flux, median,
      sortAsc, insertSorted])
    (by norm_num [flux_corr, flux_removed, excess_flux, median,
      sortAsc, insertSorted])

/-- C9 counterexample: on the end-to-end example input the normalized ratio
e[i]/f[i] differs between row 0 and row 1 (5/96 versus 5/106), so it is not
the same for every row. -/
theorem example_ratio_not_constant :
    (e_out [100, 110, 90] [5, 5, 5] (96/100) (93/100)).getD 0 0 /
      (f_out [100, 110, 90] (96/100) (93/100)).getD 0 0 ≠
    (e_out [100, 110, 90] [5, 5, 5] (96/100) (93/100)).getD 1 0 /
      (f_out [100, 110, 90] (96/100) (93/100)).getD 1 0 := by
  norm_num [e_out, f_out, flux_err_corr, flux_corr, flux_removed,
    excess_flux, median, mean, sortAsc, insertSorted]

/-- C9 amended: the end-to-end example yields median 100, excess flux 4,
flux_removed [96, 106, 86], flux_corr [9600/93, 10600/93, 8600/93],
flux_err_corr [500/93, 500/93, 500/93], and per-row normalized ratios
e[i]/f[i] equal to flux_err_corr[i]/flux_corr[i], namely 5/96, 5/106 and
5/86 — not constant across rows. -/
theorem example_end_to_end :
    median [100, 110, 90] = 100 ∧
    excess_flux [100, 110, 90] (96/100) = 4 ∧
    flux_removed [100, 110, 90] (96/100) = [96, 106, 86] ∧
    flux_corr [100, 110, 90] (96/100) (93/100) =
      [9600/93, 10600/93, 8600/93] ∧
    flux_err_corr [5, 5, 5] (93/100) = [500/93, 500/93, 500/93] ∧
    (e_out [100, 110, 90] [5, 5, 5] (96/100) (93/100)).getD 0 0 /
      (f_out [100, 110, 90] (96/100) (93/100)).getD 0 0 = 5/96 ∧
    (e_out [100, 110, 90] [5, 5, 5] (96/100) (93/100)).getD 1 0 /
      (f_out [100, 110, 90] (96/100) (93/100)).getD 1 0 = 5/106 ∧
    (e_out [100, 110, 90] [5, 5, 5] (96/100) (93/100)).getD 2 0 /
      (f_out [100, 110, 90] (96/100) (93/100)).getD 2 0 = 5/86 := by
  norm_num [e_out, f_out, flux_err_corr, flux_corr, flux_removed,
    excess_flux, median, mean, sortAsc, insertSorted]

/-- C10: the exported normalized flux series has arithmetic mean exactly 1
whenever the corrected flux sequence is non-empty with nonzero mean. -/
theorem normalized_mean_one (flux : List ℚ) (CROWDSAP FLFRCSAP : ℚ)
    (hne : flux_corr flux CROWDSAP FLFRCSAP ≠ [])
    (hm : mean (flux_corr flux CROWDSAP FLFRCSAP) ≠ 0) :
    mean (f_out flux CROWDSAP FLFRCSAP) = 1 := by
  have h0 : (flux_corr flux CROWDSAP FLFRCSAP).length ≠ 0 :=
    fun h => hne (List.length_eq_zero.mp h)
  have hlen : ((flux_corr flux CROWDSAP FLFRCSAP).length : ℚ) ≠ 0 := by
    exact_mod_cast h0
  have hsum : (flux_corr flux CROWDSAP FLFRCSAP).sum ≠ 0 := by
    intro hs
    exact hm (by simp [mean, hs])
  simp only [f_out, mean, sum_map_div, List.length_map]
  field_simp

/-- Witness for C10 at flux = [100, 110, 90], CROWDSAP = 0.96,
FLFRCSAP = 0.93. -/
theorem normalized_mean_one_witness :
    mean (f_out [100, 110, 90] (96/100) (93/100)) = 1 :=
  normalized_mean_one [100, 110, 90] (96/100) (93/100)
    (by simp [flux_corr, flux_removed])
    (by norm_num [mean, flux_corr, flux_removed, excess_flux, median,
      sortAsc, insertSorted])
